import Mathlib

/-!
# HomeMonitor core — shallow embedding and verification

This file embeds, as executable Lean definitions, the scheduling, session,
consistency and time-window logic of the HomeMonitor repository
(`src/lib/time-utils.ts`, `src/lib/retry.ts`,
`src/plugins/evohome/api/mock-api-client.ts` (AuthManager),
`src/plugins/evohome/services/device-cache-service.ts`,
`src/plugins/evohome/services/zone-service.ts`)
and proves or refutes the specified properties of that code.

JavaScript `Date` values are modelled by explicit wall-clock components
(`WallClock`, `DateTime`) and epoch instants in milliseconds (`Nat`/`Int`);
JS numbers in these code paths are integer-valued, so `Nat`/`Int` arithmetic
is exact.  JS `Map`s are modelled by insertion-ordered association lists.
-/

namespace HomeMonitor

/-- Wall-clock position inside the current hour, as read by
`new Date()` via `getMinutes()` / `getSeconds()` / `getMilliseconds()`. -/
structure WallClock where
  minutes : Nat
  seconds : Nat
  millis : Nat
  deriving DecidableEq, Repr

/-- A valid wall clock reading: what the JS `Date` getters can return. -/
def WallClock.Valid (c : WallClock) : Prop :=
  c.minutes < 60 ∧ c.seconds < 60 ∧ c.millis < 1000

instance (c : WallClock) : Decidable c.Valid := by
  unfold WallClock.Valid; infer_instance

/-- Milliseconds elapsed since the start of the current hour. -/
def WallClock.hourPos (c : WallClock) : Nat :=
  c.minutes * 60 * 1000 + c.seconds * 1000 + c.millis

/-- Embedding of `TaskScheduler.getNextAlignedDelay` (src/lib/time-utils.ts):
milliseconds until the next aligned run for the given interval. -/
def getNextAlignedDelay (intervalMinutes : Nat) (now : WallClock) : Nat :=
  let currentMinutes := now.minutes
  let currentSeconds := now.seconds
  let currentMs := now.millis
  -- Calculate how many intervals have passed in this hour
  let intervalsPassed := currentMinutes / intervalMinutes
  -- Calculate the next interval time
  let nextIntervalMinute := (intervalsPassed + 1) * intervalMinutes
  -- If next interval is in the next hour
  if nextIntervalMinute ≥ 60 then
    let minutesUntilNextHour := 60 - currentMinutes
    let secondsUntilNextHour := 60 - currentSeconds
    let msUntilNextHour := 1000 - currentMs
    (minutesUntilNextHour - 1) * 60 * 1000 + secondsUntilNextHour * 1000 + msUntilNextHour
  else
    -- Calculate delay to next interval in this hour
    let minutesUntilNext := nextIntervalMinute - currentMinutes
    let secondsUntilNext := 60 - currentSeconds
    let msUntilNext := 1000 - currentMs
    (minutesUntilNext - 1) * 60 * 1000 + secondsUntilNext * 1000 + msUntilNext

/-- Embedding of the delay computation inside `TaskScheduler.scheduleNextRun`
(src/lib/time-utils.ts), which duplicates the body of `getNextAlignedDelay`
with `status.intervalMinutes` as the interval. -/
def scheduleNextRunDelay (intervalMinutes : Nat) (now : WallClock) : Nat :=
  let currentMinutes := now.minutes
  let currentSeconds := now.seconds
  let currentMs := now.millis
  let intervalsPassed := currentMinutes / intervalMinutes
  let nextIntervalMinute := (intervalsPassed + 1) * intervalMinutes
  if nextIntervalMinute ≥ 60 then
    let minutesUntilNextHour := 60 - currentMinutes
    let secondsUntilNextHour := 60 - currentSeconds
    let msUntilNextHour := 1000 - currentMs
    (minutesUntilNextHour - 1) * 60 * 1000 + secondsUntilNextHour * 1000 + msUntilNextHour
  else
    let minutesUntilNext := nextIntervalMinute - currentMinutes
    let secondsUntilNext := 60 - currentSeconds
    let msUntilNext := 1000 - currentMs
    (minutesUntilNext - 1) * 60 * 1000 + secondsUntilNext * 1000 + msUntilNext

/-! ## Time-window evaluator (src/lib/time-utils.ts) -/

/-- A calendar instant as read by the JS `Date` getters used in
`isWithinTimeWindow` and `getScheduledTemperature`:
`getDay()` (0 = Sunday), `getHours()`, `getMinutes()`. -/
structure DateTime where
  weekday : Nat
  hours : Nat
  minutes : Nat
  deriving DecidableEq, Repr

/-- ASCII lower-casing of one character; agrees with JS `toLowerCase` on the
ASCII day and room names this code handles. -/
def toLowerChar (c : Char) : Char :=
  if c.toNat ≥ 65 ∧ c.toNat ≤ 90 then Char.ofNat (c.toNat + 32) else c

/-- Embedding of JS `String.prototype.toLowerCase` for the ASCII inputs used here. -/
def jsToLower (s : String) : String := ⟨s.data.map toLowerChar⟩

/-- A parsed `"HH:MM"` time string: `timeToMinutes` splits on `:` and reads the
two numeric fields, so the string is modelled by its two components. -/
structure HHMM where
  hours : Nat
  minutes : Nat
  deriving DecidableEq, Repr

/-- Embedding of `timeToMinutes` (src/lib/time-utils.ts): minutes since
midnight of a parsed `"HH:MM"` string. -/
def timeToMinutes (timeStr : HHMM) : Nat :=
  timeStr.hours * 60 + timeStr.minutes

/-- Embedding of the `TimeWindow` configuration interface.  The source field
named `end` is called `endTime` here because `end` is a Lean keyword. -/
structure TimeWindow where
  days : List String
  start : HHMM
  endTime : HHMM
  deriving DecidableEq, Repr

/-- The `dayNames` table of `isWithinTimeWindow`, indexed by `Date.getDay()`. -/
def dayNames : List String :=
  ["sunday", "monday", "tuesday", "wednesday", "thursday", "friday", "saturday"]

/-- Embedding of `isWithinTimeWindow` (src/lib/time-utils.ts). -/
def isWithinTimeWindow (window : TimeWindow) (date : DateTime) : Bool :=
  let currentDay := dayNames.getD date.weekday ""
  let currentMinutes := date.hours * 60 + date.minutes
  let startMinutes := timeToMinutes window.start
  let endMinutes := timeToMinutes window.endTime
  let normalizedDays := window.days.map jsToLower
  -- Handle time windows that cross midnight (e.g., 23:00 to 06:00)
  if endMinutes < startMinutes then
    -- In the "end" part (after midnight): check if yesterday is an allowed day
    if currentMinutes ≤ endMinutes then
      let yesterday := dayNames.getD ((date.weekday + 7 - 1) % 7) ""
      normalizedDays.contains yesterday
    -- In the "start" part (before midnight): check if today is an allowed day
    else if currentMinutes ≥ startMinutes then
      normalizedDays.contains currentDay
    else
      false
  else
    -- Normal time window (does not cross midnight)
    if currentMinutes ≥ startMinutes ∧ currentMinutes ≤ endMinutes then
      normalizedDays.contains currentDay
    else
      false

/-! ## Zone service override rules
(src/plugins/evohome/services/zone-service.ts) -/

/-- Embedding of the `OverrideRule` configuration interface. -/
structure OverrideRule where
  roomName : String
  allowOverride : Bool
  timeWindows : List TimeWindow
  deriving DecidableEq, Repr

/-- Embedding of `ZoneService.isOverrideAllowed`.  The service reads the rule
list from `this.config.overrideRules`; the list is passed explicitly here. -/
def isOverrideAllowed (overrideRules : List OverrideRule) (roomName : String)
    (date : DateTime) : Bool :=
  let normalizedName := jsToLower roomName
  match overrideRules.find? (fun r => jsToLower r.roomName == normalizedName) with
  -- If no rule exists, default is to ALLOW overrides
  | none => true
  | some rule =>
    -- Rule exists but allowOverride is false: ALLOW overrides (blocking disabled)
    if !rule.allowOverride then
      true
    -- Blocking enabled with no time windows: block all the time
    else if rule.timeWindows.length == 0 then
      false
    else
      -- Inside a blocked window: not allowed; outside: allowed
      let isInBlockedWindow := rule.timeWindows.any (fun w => isWithinTimeWindow w date)
      !isInBlockedWindow

/-! ## Backoff retrier (src/lib/retry.ts) -/

/-- An error thrown by a wrapped operation; only its `message` is inspected. -/
structure ApiError where
  message : String
  deriving DecidableEq, Repr

/-- Embedding of JS `String.prototype.includes`: substring test on the
character lists of the two strings. -/
def strIncludes (s pat : String) : Bool :=
  go s.data
where
  go : List Char → Bool
    | [] => pat.data.isEmpty
    | c :: rest => pat.data.isPrefixOf (c :: rest) || go rest

/-- The rate-limit test of `retryWithBackoff`: the error message contains
`429` or `TooManyRequests`. -/
def isRateLimitError (e : ApiError) : Bool :=
  strIncludes e.message "429" || strIncludes e.message "TooManyRequests"

/-- One simulated run of the wrapped operation per attempt index: the
behaviour of `fn` on its n-th invocation. -/
def AttemptOutcomes (α : Type) := Nat → Except ApiError α

/-- The `for` loop of `retryWithBackoff`, one recursive step per loop
iteration.  `fuel` counts the remaining iterations (the source loop runs for
`attempt = 0 .. maxRetries`, so it is started with `maxRetries + 1`);
`lastError` mirrors the `lastError` local.  Returns the overall result
together with the list of backoff delays (ms) actually awaited. -/
def retryLoop (outcomes : AttemptOutcomes α) (maxRetries baseDelay : Nat) :
    Nat → Nat → Option ApiError → Except ApiError α × List Nat
  -- loop exhausted: the trailing `throw lastError` (unreachable in the source,
  -- because the attempt == maxRetries case throws inside the loop)
  | 0, _, lastError => (.error (lastError.getD ⟨""⟩), [])
  | fuel + 1, attempt, _ =>
    match outcomes attempt with
    | .ok v => (.ok v, [])
    | .error e =>
      if attempt == maxRetries || !isRateLimitError e then
        (.error e, [])
      else
        let delayMs := baseDelay * 2 ^ attempt
        let rest := retryLoop outcomes maxRetries baseDelay fuel (attempt + 1) (some e)
        (rest.1, delayMs :: rest.2)

/-- Embedding of `retryWithBackoff` (src/lib/retry.ts); defaults in the source
are `maxRetries = 3`, `baseDelay = 1000`. -/
def retryWithBackoff (outcomes : AttemptOutcomes α) (maxRetries : Nat := 3)
    (baseDelay : Nat := 1000) : Except ApiError α × List Nat :=
  retryLoop outcomes maxRetries baseDelay (maxRetries + 1) 0 none

/-! ## Authentication manager
(src/plugins/evohome/api/mock-api-client.ts, AuthManager) -/

/-- Embedding of the `SessionCache` record cached by the V2 path. -/
structure SessionCache where
  userId : String
  sessionId : String
  deriving DecidableEq, Repr

/-- Embedding of the `TokenCache` record cached by the V1 path; `expiresAt`
is an epoch instant in milliseconds. -/
structure TokenCache where
  token : String
  expiresAt : Int
  deriving DecidableEq, Repr

/-- The mutable fields of `AuthManager` relevant to caching and backoff. -/
structure AuthManagerState where
  cachedV2Session : Option SessionCache
  cachedV1Token : Option TokenCache
  lastAuthFailure : Option Int
  authFailureCount : Nat
  deriving DecidableEq, Repr

/-- The `MIN_AUTH_RETRY_DELAY` constant: 30 seconds in milliseconds. -/
def MIN_AUTH_RETRY_DELAY : Int := 30000

/-- Embedding of `AuthManager.getAuthRetryDelay`: milliseconds to wait before
the next authentication attempt, or 0.  The source computes
`Math.pow(2, Math.min(authFailureCount - 1, 3))`; whenever `lastAuthFailure`
is set the class invariant gives `authFailureCount ≥ 1`, and under that
invariant the Nat subtraction below agrees with the JS arithmetic. -/
def getAuthRetryDelay (st : AuthManagerState) (now : Int) : Int :=
  match st.lastAuthFailure with
  | none => 0
  | some lastFailure =>
    let timeSinceLastFailure := now - lastFailure
    -- Exponential backoff, max 4 minutes
    let requiredDelay := MIN_AUTH_RETRY_DELAY * 2 ^ (min (st.authFailureCount - 1) 3)
    if timeSinceLastFailure < requiredDelay then
      requiredDelay - timeSinceLastFailure
    else
      0

/-- What `getV2Session` does before any network traffic: either return the
cached session, or sleep `waitMs` and then issue the remote authenticate
call.  Mirrors the head of `AuthManager.getV2Session`. -/
inductive V2SessionStep where
  | useCached (s : SessionCache)
  | authenticate (waitMs : Int)
  deriving DecidableEq, Repr

/-- Embedding of the cache/backoff decision of `AuthManager.getV2Session`:
a cached session is returned unless a temporary test config is supplied;
otherwise the call waits `getAuthRetryDelay` (if positive) and then
authenticates remotely. -/
def getV2SessionStep (st : AuthManagerState) (now : Int) (tempConfig : Bool) :
    V2SessionStep :=
  match st.cachedV2Session with
  | some s => if !tempConfig then .useCached s else .authenticate (getAuthRetryDelay st now)
  | none => .authenticate (getAuthRetryDelay st now)

/-- Outcome of the remote V1 OAuth2 call: the parsed success payload
(`access_token`, `expires_in` seconds) or an HTTP failure status. -/
inductive V1AuthOutcome where
  | ok (access_token : String) (expires_in : Int)
  | httpError (status : Nat)
  deriving DecidableEq, Repr

/-- Embedding of `AuthManager.getV1Token` as a state transition: given the
current state, the current instant and the outcome the remote call would
produce, returns the result (token or error), the successor state, and the
number of remote authentication calls performed (0 or 1).  The source
performs no backoff wait on this path (it never consults
`getAuthRetryDelay`), and a failed call leaves the cached state unchanged. -/
def getV1Token (st : AuthManagerState) (now : Int) (outcome : V1AuthOutcome) :
    Except String String × AuthManagerState × Nat :=
  -- Check if we have a valid cached token
  match st.cachedV1Token with
  | some cached =>
    if cached.expiresAt > now then
      (.ok cached.token, st, 0)
    else
      getV1TokenAuth st now outcome
  | none => getV1TokenAuth st now outcome
where
  /-- The authenticate-and-cache tail of `getV1Token`. -/
  getV1TokenAuth (st : AuthManagerState) (now : Int) (outcome : V1AuthOutcome) :
      Except String String × AuthManagerState × Nat :=
    match outcome with
    | .httpError status =>
      (.error ("V1 authentication failed: " ++ toString status), st, 1)
    | .ok access_token expires_in =>
      -- Cache the token with expiry (subtract 5 minutes for safety margin)
      let expiresAt := now + (expires_in - 300) * 1000
      (.ok access_token,
       { st with cachedV1Token := some ⟨access_token, expiresAt⟩ }, 1)

/-! ## Device cache service
(src/plugins/evohome/services/device-cache-service.ts)

Temperatures are JS numbers carried around without arithmetic; they are
modelled as rationals.  Epoch instants (`Date.now()`) are `Nat` milliseconds.
Device fields not read or written by the cache service (indoor temperature,
name, ...) are omitted from the embedded record. -/

/-- The `heatSetpoint` object inside a zone device's `changeableValues`,
with the `_optimisticUpdateTime` marker the cache service stamps on it
(called `optimisticUpdateTime` here). -/
structure HeatSetpoint where
  value : Rat
  status : String
  optimisticUpdateTime : Option Nat
  deriving DecidableEq, Repr

/-- The `changeableValues` object of a device; `mode`, `status` and the
marker are used on DHW devices, `heatSetpoint` on zone devices. -/
structure ChangeableValues where
  heatSetpoint : Option HeatSetpoint
  mode : Option String
  status : Option String
  optimisticUpdateTime : Option Nat
  deriving DecidableEq, Repr

/-- The `thermostat` object of a device. -/
structure Thermostat where
  changeableValues : ChangeableValues
  deriving DecidableEq, Repr

/-- A cached device record, restricted to the fields the cache service
touches. -/
structure Device where
  deviceID : Nat
  thermostatModelType : String
  thermostat : Thermostat
  deriving DecidableEq, Repr

/-- In-place mutation of the first list element satisfying `p`, as JS
`array.find(...)` followed by mutation of the found object behaves. -/
def updateFirst (p : α → Bool) (f : α → α) : List α → List α
  | [] => []
  | x :: xs => if p x then f x :: xs else x :: updateFirst p f xs

/-- The per-device merge step of `DeviceCacheService.setDevices`: the
incoming device is kept, except that a zone heat setpoint carrying a recent
optimistic marker and a differing cached value is preserved from the cache.
The JS guard `existingSetpoint._optimisticUpdateTime` is a truthiness test,
so the marker must be present and nonzero. -/
def mergeDevice (existingCache : List Device) (now : Nat) (newDevice : Device) :
    Device :=
  match existingCache.find? (fun d => d.deviceID == newDevice.deviceID) with
  | none => newDevice
  | some existingDevice =>
    match existingDevice.thermostat.changeableValues.heatSetpoint,
          newDevice.thermostat.changeableValues.heatSetpoint with
    | some existingSetpoint, some newSetpoint =>
      let markerTruthy :=
        match existingSetpoint.optimisticUpdateTime with
        | some t => t != 0
        | none => false
      if existingSetpoint.value ≠ newSetpoint.value ∧ markerTruthy = true then
        let timeSinceUpdate := now - (existingSetpoint.optimisticUpdateTime.getD 0)
        if timeSinceUpdate < 5000 then
          -- Less than 5 seconds old: preserve the optimistic update
          { newDevice with
            thermostat.changeableValues.heatSetpoint := some existingSetpoint }
        else
          newDevice
      else
        newDevice
    | _, _ => newDevice

/-- Embedding of `DeviceCacheService.setDevices`: first call stores the
snapshot verbatim; later calls merge each incoming device against the cache
via `mergeDevice` and replace the cache with the merged list. -/
def setDevices (cache : Option (List Device)) (now : Nat) (devices : List Device) :
    Option (List Device) :=
  match cache with
  | none => some devices
  | some existingCache => some (devices.map (mergeDevice existingCache now))

/-- Embedding of `DeviceCacheService.updateDHWState`: stamps mode, status and
the optimistic marker onto the first cached device with the given id,
provided it is a DHW device; otherwise leaves the cache unchanged. -/
def updateDHWState (cache : Option (List Device)) (now : Nat) (deviceId : Nat)
    (mode status : String) : Option (List Device) :=
  match cache with
  | none => none
  | some devices =>
    match devices.find? (fun d => d.deviceID == deviceId) with
    | none => some devices
    | some device =>
      if device.thermostatModelType ≠ "DOMESTIC_HOT_WATER" then
        some devices
      else
        some (updateFirst (fun d => d.deviceID == deviceId)
          (fun d =>
            { d with
              thermostat.changeableValues.mode := some mode,
              thermostat.changeableValues.status := some status,
              thermostat.changeableValues.optimisticUpdateTime := some now })
          devices)

/-- The `dayOfWeek` field of a daily schedule, which the source stores either
as a day name string or as a numeric index. -/
inductive DayOfWeekValue where
  | str (s : String)
  | num (n : Nat)
  deriving DecidableEq, Repr

/-- A schedule switchpoint.  The source reads the time under either the
`timeOfDay` or the `TimeOfDay` property name, so both are modelled. -/
structure Switchpoint where
  timeOfDay : Option String
  TimeOfDay : Option String
  heatSetpoint : Option Rat
  deriving DecidableEq, Repr

/-- A daily schedule for one zone. -/
structure DaySchedule where
  dayOfWeek : DayOfWeekValue
  switchpoints : List Switchpoint
  deriving DecidableEq, Repr

/-- A zone schedule. -/
structure ZoneSchedule where
  zoneId : String
  dailySchedules : List DaySchedule
  deriving DecidableEq, Repr

/-- JS `sp.timeOfDay || sp.TimeOfDay`: the lowercase property when it is
truthy (present and not the empty string), else the uppercase property. -/
def timeValue (sp : Switchpoint) : Option String :=
  match sp.timeOfDay with
  | some s => if s ≠ "" then some s else sp.TimeOfDay
  | none => sp.TimeOfDay

/-- Lexicographic comparison of character lists; on the `"HH:MM:SS"` keys the
source compares, this agrees with both JS `<=` and `localeCompare`. -/
def lexLe : List Char → List Char → Bool
  | [], _ => true
  | _ :: _, [] => false
  | a :: as, b :: bs => if a = b then lexLe as bs else decide (a < b)

/-- String comparison used for switchpoint times. -/
def strLe (a b : String) : Bool := lexLe a.data b.data

/-- JS `String(n).padStart(2, '0')` on the hour and minute components. -/
def pad2 (n : Nat) : String := if n < 10 then "0" ++ toString n else toString n

/-- The capitalized `dayNames` table local to `getScheduledTemperature`. -/
def scheduleDayNames : List String :=
  ["Sunday", "Monday", "Tuesday", "Wednesday", "Thursday", "Friday", "Saturday"]

/-- The switchpoint scan of `getScheduledTemperature`: walk the sorted
switchpoints, remembering the setpoint of each one at or before the current
time, and stop at the first that is not (or that lacks a setpoint). -/
def findActiveTemp (currentTime : String) :
    List Switchpoint → Option Rat → Option Rat
  | [], activeTemp => activeTemp
  | sp :: rest, activeTemp =>
    let spTime := (timeValue sp).getD ""
    if strLe spTime currentTime && sp.heatSetpoint.isSome then
      findActiveTemp currentTime rest sp.heatSetpoint
    else
      activeTemp

/-- Embedding of `DeviceCacheService.getScheduledTemperature`.  The JS sort
is stable (and the comparator a total preorder), so the stable
`List.insertionSort` produces the identical ordering. -/
def getScheduledTemperature (zoneSchedules : List ZoneSchedule) (zoneId : String)
    (date : DateTime) : Option Rat :=
  match zoneSchedules.find? (fun s => s.zoneId == zoneId) with
  | none => none
  | some schedule =>
    let dayOfWeek := date.weekday
    let currentTime := pad2 date.hours ++ ":" ++ pad2 date.minutes ++ ":00"
    match schedule.dailySchedules.find? (fun ds =>
        match ds.dayOfWeek with
        | .str s => s == scheduleDayNames.getD dayOfWeek ""
        | .num n => n == dayOfWeek) with
    | none => none
    | some daySchedule =>
      if daySchedule.switchpoints.length == 0 then
        none
      else
        let sortedSwitchpoints := List.insertionSort
          (fun a b => strLe ((timeValue a).getD "") ((timeValue b).getD "") = true)
          (daySchedule.switchpoints.filter (fun sp => (timeValue sp).isSome))
        if sortedSwitchpoints.length == 0 then
          none
        else
          match findActiveTemp currentTime sortedSwitchpoints none with
          | some activeTemp => some activeTemp
          | none =>
            -- No switchpoint before the current time: carry over the last
            -- switchpoint of the (sorted) day
            match sortedSwitchpoints.getLast? with
            | some lastSwitchpoint => lastSwitchpoint.heatSetpoint
            | none => none

/-- Embedding of `DeviceCacheService.updateDeviceState`: optimistically
updates the heat setpoint of the first cached device with the given id.
When called with temperature 0.0 and status `Scheduled`, the scheduled
temperature is substituted when available; when it is not, only the status
and the optimistic marker are written. -/
def updateDeviceState (cache : Option (List Device))
    (zoneSchedules : List ZoneSchedule) (date : DateTime) (now : Nat)
    (deviceId : Nat) (temperature : Rat) (status : String) :
    Option (List Device) :=
  match cache with
  | none => none
  | some devices =>
    match devices.find? (fun d => d.deviceID == deviceId) with
    | none => some devices
    | some _device =>
      let tempChoice : Rat × Bool :=
        if temperature = 0 ∧ status = "Scheduled" then
          match getScheduledTemperature zoneSchedules (toString deviceId) date with
          | some scheduledTemp => (scheduledTemp, true)
          | none =>
            -- No schedule found: keep current temperature, update status only
            (temperature, false)
        else
          (temperature, true)
      let finalTemp := tempChoice.1
      let shouldUpdateTemp := tempChoice.2
      some (updateFirst (fun d => d.deviceID == deviceId)
        (fun d =>
          match d.thermostat.changeableValues.heatSetpoint with
          | none =>
            { d with
              thermostat.changeableValues.heatSetpoint :=
                some ⟨if shouldUpdateTemp then finalTemp else 0, status, some now⟩ }
          | some heatSetpoint =>
            { d with
              thermostat.changeableValues.heatSetpoint :=
                some { heatSetpoint with
                  value := if shouldUpdateTemp then finalTemp else heatSetpoint.value,
                  status := status,
                  optimisticUpdateTime := some now } })
        devices)

/-! ## Task scheduler state machine (src/lib/time-utils.ts, TaskScheduler)

The scheduler's JS `Map`s are modelled by insertion-ordered association
lists with `Map.get` / `Map.set` semantics (`mapGet` / `mapSet`).  An armed
`setTimeout` is modelled by the delay (ms) it was armed with; task handlers
are opaque and referenced by a numeric id, and the outcome of awaiting a
handler is passed to `executeTask` explicitly. -/

/-- The task status values of the source's `TaskStatus.status` union. -/
inductive TaskState where
  | notRun
  | pending
  | running
  | ok
  | failed
  deriving DecidableEq, Repr

/-- Embedding of the `TaskStatus` record. -/
structure TaskStatus where
  taskId : String
  lastRun : Option Nat
  nextRun : Option Nat
  status : TaskState
  statusDetail : String
  intervalMinutes : Nat
  totalRuns : Nat
  deriving DecidableEq, Repr

/-- Embedding of the `TaskConfig` record; `handler` is an opaque reference. -/
structure TaskConfig where
  taskId : String
  label : String
  intervalMinutes : Nat
  priority : Nat
  handler : Nat
  runOnStartup : Bool
  minRescheduleThreshold : Option Nat
  deriving DecidableEq, Repr

/-- Embedding of the `QueuedOperation` record; the deferred action is an
opaque reference. -/
structure QueuedOperation where
  taskId : String
  operation : Nat
  priority : Nat
  deriving DecidableEq, Repr

/-- JS `Map.get`. -/
def mapGet (m : List (String × β)) (k : String) : Option β :=
  (m.find? (fun p => p.1 == k)).map (fun p => p.2)

/-- JS `Map.set`: replace in place, or append in insertion order. -/
def mapSet (k : String) (v : β) : List (String × β) → List (String × β)
  | [] => [(k, v)]
  | (k', v') :: rest => if k' == k then (k, v) :: rest else (k', v') :: mapSet k v rest

/-- The mutable fields of `TaskScheduler`. -/
structure SchedulerState where
  timers : List (String × Nat)
  taskStatuses : List (String × TaskStatus)
  taskConfigs : List (String × TaskConfig)
  operationQueue : List QueuedOperation
  isProcessingQueue : Bool
  deriving DecidableEq, Repr

/-- Embedding of `TaskScheduler.scheduleTask`: computes the aligned initial
delay from the config's interval, records `nextRun` and (re)arms the task's
timer.  `now` is the wall clock read inside `getNextAlignedDelay` and
`nowMs` the matching `Date.now()` epoch instant. -/
def scheduleTask (st : SchedulerState) (taskId : String) (now : WallClock)
    (nowMs : Nat) : SchedulerState :=
  match mapGet st.taskConfigs taskId, mapGet st.taskStatuses taskId with
  | some config, some status =>
    let initialDelay := getNextAlignedDelay config.intervalMinutes now
    let status' := { status with nextRun := some (nowMs + initialDelay) }
    { st with
      taskStatuses := mapSet taskId status' st.taskStatuses,
      timers := mapSet taskId initialDelay st.timers }
  | _, _ => st

/-- Embedding of `TaskScheduler.scheduleNextRun`: same delay computation
as `scheduleTask` but from the status's interval, then records `nextRun`
and arms the timer. -/
def scheduleNextRun (st : SchedulerState) (taskId : String) (now : WallClock)
    (nowMs : Nat) : SchedulerState :=
  match mapGet st.taskConfigs taskId, mapGet st.taskStatuses taskId with
  | some _config, some status =>
    let nextDelay := scheduleNextRunDelay status.intervalMinutes now
    let status' := { status with nextRun := some (nowMs + nextDelay) }
    { st with
      taskStatuses := mapSet taskId status' st.taskStatuses,
      timers := mapSet taskId nextDelay st.timers }
  | _, _ => st

/-- Embedding of `TaskScheduler.executeTask`: marks the task running,
increments its run counter, records the handler's outcome (`OK` with cleared
detail, or `Failed` with the error message), and in the `finally` block
records `lastRun` and arms the next aligned run.  The handler's outcome is
the `handlerResult` argument; an exception surfaces only as the `.error`
case, never as a failure of this transition. -/
def executeTask (st : SchedulerState) (taskId : String)
    (handlerResult : Except ApiError Unit) (now : WallClock) (nowMs : Nat) :
    SchedulerState :=
  match mapGet st.taskConfigs taskId, mapGet st.taskStatuses taskId with
  | some _config, some status =>
    let status1 := { status with
      status := TaskState.running, statusDetail := "",
      totalRuns := status.totalRuns + 1 }
    let status2 :=
      match handlerResult with
      | .ok _ => { status1 with status := TaskState.ok, statusDetail := "" }
      | .error e => { status1 with status := TaskState.failed, statusDetail := e.message }
    let status3 := { status2 with lastRun := some nowMs }
    scheduleNextRun { st with taskStatuses := mapSet taskId status3 st.taskStatuses }
      taskId now nowMs
  | _, _ => st

/-- Embedding of `TaskScheduler.updateTaskInterval`.  An unknown task id only
logs a warning and returns.  The JS default `config.minRescheduleThreshold
|| 5` treats an absent or zero threshold as 5.  `timeUntilNextRun` may be
negative, hence the `Int` comparison. -/
def updateTaskInterval (st : SchedulerState) (taskId : String)
    (newIntervalMinutes : Nat) (now : WallClock) (nowMs : Nat) : SchedulerState :=
  match mapGet st.taskConfigs taskId, mapGet st.taskStatuses taskId with
  | some config, some status =>
    -- Skip if interval has not changed
    if newIntervalMinutes = status.intervalMinutes then
      st
    else
      let threshold :=
        match config.minRescheduleThreshold with
        | some t => if t = 0 then 5 else t
        | none => 5
      let minThresholdMs : Int := threshold * 60 * 1000
      let timeUntilNextRun : Int :=
        match status.nextRun with
        | some nextRun => (nextRun : Int) - (nowMs : Int)
        | none => 0
      let config' := { config with intervalMinutes := newIntervalMinutes }
      let status' := { status with intervalMinutes := newIntervalMinutes }
      let st' := { st with
        taskConfigs := mapSet taskId config' st.taskConfigs,
        taskStatuses := mapSet taskId status' st.taskStatuses }
      if timeUntilNextRun > minThresholdMs then
        -- Next run is far away: reschedule now
        scheduleTask st' taskId now nowMs
      else
        -- Next run is soon: update the interval, let the armed timer stand
        st'
  | _, _ => st

/-- What `getV1Token` does before any network traffic: either return the
cached token or issue the remote authenticate call after waiting `waitMs`.
The source body of `getV1Token` contains no backoff wait of any kind (it
never consults `getAuthRetryDelay`), so the authenticate case always carries
a zero wait. -/
inductive V1TokenStep where
  | useCached (token : String)
  | authenticate (waitMs : Int)
  deriving DecidableEq, Repr

/-- The cache/wait decision at the head of `AuthManager.getV1Token`,
in the same shape as `getV2SessionStep`. -/
def getV1TokenStep (st : AuthManagerState) (now : Int) : V1TokenStep :=
  match st.cachedV1Token with
  | some cached =>
    if cached.expiresAt > now then .useCached cached.token
    else .authenticate 0
  | none => .authenticate 0

/-! ## Concrete instances used by witnesses and counterexamples -/

/-- The midnight-crossing example window from the spec. -/
def nightWindow : TimeWindow := ⟨["monday"], ⟨23, 0⟩, ⟨6, 0⟩⟩

/-- A DHW device as the cache would hold it before any optimistic update. -/
def dhwBase : Device :=
  ⟨100, "DOMESTIC_HOT_WATER", ⟨⟨none, some "DHWOff", some "Scheduled", none⟩⟩⟩

/-- The same DHW device after `updateDHWState` stamped a boost at t=1000ms. -/
def dhwStamped : Device :=
  ⟨100, "DOMESTIC_HOT_WATER", ⟨⟨none, some "DHWOn", some "Temporary", some 1000⟩⟩⟩

/-- An incoming snapshot for the DHW device that has not yet caught up with
the boost. -/
def dhwIncoming : Device :=
  ⟨100, "DOMESTIC_HOT_WATER", ⟨⟨none, some "DHWOff", some "Scheduled", none⟩⟩⟩

/-- An auth manager state after three consecutive authentication failures,
the last at epoch 1000000 ms, with nothing cached. -/
def backoffState : AuthManagerState := ⟨none, none, some 1000000, 3⟩

/-- A cached zone device with a fresh optimistic setpoint (stamped t=1000ms). -/
def zoneCached : Device :=
  ⟨7, "EMEA_ZONE", ⟨⟨some ⟨22, "Temporary", some 1000⟩, none, none, none⟩⟩⟩

/-- An incoming snapshot for the same zone, still showing the old setpoint. -/
def zoneIncoming : Device :=
  ⟨7, "EMEA_ZONE", ⟨⟨some ⟨20, "Scheduled", none⟩, none, none, none⟩⟩⟩

/-- A zone device with an existing heat setpoint, for the C10 witness. -/
def sampleZoneDevice : Device :=
  ⟨7, "EMEA_ZONE", ⟨⟨some ⟨21, "Hold", none⟩, none, none, none⟩⟩⟩

/-- A registered task status, for the scheduler witnesses. -/
def sampleStatus : TaskStatus :=
  ⟨"evohome:zoneStatus", none, none, TaskState.notRun, "", 5, 0⟩

/-- A registered task config, for the scheduler witnesses. -/
def sampleConfig : TaskConfig :=
  ⟨"evohome:zoneStatus", "Zone Status Polling", 5, 1, 0, true, none⟩

/-- A scheduler state with one registered task, for the scheduler witnesses. -/
def sampleScheduler : SchedulerState :=
  ⟨[], [("evohome:zoneStatus", sampleStatus)], [("evohome:zoneStatus", sampleConfig)], [], false⟩

/-! ## Sanity checks of the embedding on concrete runs -/

example : getNextAlignedDelay 5 ⟨3, 10, 0⟩ = 111000 := by decide

example : (WallClock.hourPos ⟨3, 10, 0⟩) + getNextAlignedDelay 5 ⟨3, 10, 0⟩ = 301000 := by decide

example : isWithinTimeWindow nightWindow ⟨1, 23, 30⟩ = true := by decide

example : isWithinTimeWindow nightWindow ⟨2, 2, 0⟩ = true := by decide

example : isWithinTimeWindow nightWindow ⟨2, 10, 0⟩ = false := by decide

example : isWithinTimeWindow nightWindow ⟨0, 23, 30⟩ = false := by decide

example : isOverrideAllowed [] "Kitchen" ⟨1, 12, 0⟩ = true := by decide

example : isOverrideAllowed [⟨"Kitchen", true, [nightWindow]⟩] "kitchen" ⟨1, 23, 30⟩ = false := by decide

example : isOverrideAllowed [⟨"Kitchen", true, [nightWindow]⟩] "kitchen" ⟨1, 12, 0⟩ = true := by decide

example : isOverrideAllowed [⟨"Kitchen", true, []⟩] "kitchen" ⟨1, 12, 0⟩ = false := by decide

example : isOverrideAllowed [⟨"Kitchen", false, [nightWindow]⟩] "kitchen" ⟨1, 23, 30⟩ = true := by decide

/-! ## Claim theorems -/

/-- C1: the aligned-delay computation does NOT land runs on the start of the
next interval block.  At wall-clock 12:03:10.000 with a 5-minute interval,
both `getNextAlignedDelay` and the identical logic of `scheduleNextRun`
return 111000 ms, landing at 12:05:01.000 rather than 12:05:00.000; and for
every valid wall clock and every interval 0 < I ≤ 60, the landing instant is
always 1000 ms past a minute boundary (second 1 of the target minute), never
on the zero-second block start the claim describes. -/
theorem alignedDelay_lands_one_second_late :
    getNextAlignedDelay 5 ⟨3, 10, 0⟩ = 111000 ∧
    scheduleNextRunDelay 5 ⟨3, 10, 0⟩ = 111000 ∧
    WallClock.hourPos ⟨3, 10, 0⟩ + 111000 = 5 * 60 * 1000 + 1000 ∧
    WallClock.hourPos ⟨3, 10, 0⟩ + 111000 ≠ 5 * 60 * 1000 ∧
    (∀ (intervalMinutes : Nat) (now : WallClock),
      0 < intervalMinutes → intervalMinutes ≤ 60 → now.Valid →
      (now.hourPos + getNextAlignedDelay intervalMinutes now) % 60000 = 1000) := by
  refine ⟨by decide, by decide, by decide, by decide, ?_⟩
  intro I now hI _h60 hv
  obtain ⟨hm, hs, hms⟩ := hv
  have hmn : now.minutes < (now.minutes / I + 1) * I := by
    have hdm := Nat.div_add_mod now.minutes I
    have hr : now.minutes % I < I := Nat.mod_lt _ hI
    have heq : (now.minutes / I + 1) * I = I * (now.minutes / I) + I := by ring
    linarith
  simp only [getNextAlignedDelay, WallClock.hourPos]
  set n := (now.minutes / I + 1) * I with hn
  split
  · omega
  · omega

/-- C1 witness: the general landing-offset statement instantiated at the
spec's own example input. -/
theorem alignedDelay_lands_one_second_late_witness :
    0 < 5 ∧ 5 ≤ 60 ∧ (WallClock.mk 3 10 0).Valid ∧
    ((WallClock.mk 3 10 0).hourPos + getNextAlignedDelay 5 ⟨3, 10, 0⟩) % 60000 = 1000 :=
  ⟨by decide, by decide, by decide,
    alignedDelay_lands_one_second_late.2.2.2.2 5 ⟨3, 10, 0⟩ (by decide) (by decide) (by decide)⟩

/-- C4: for a midnight-crossing window (end earlier than start),
`isWithinTimeWindow` is true exactly when either the minute-of-day is at most
the end time and the preceding weekday is among the window's (normalized)
days, or the minute-of-day is at least the start time and the current weekday
is among them; together with the spec's four concrete examples for the
window 23:00-06:00 on Monday. -/
theorem isWithinTimeWindow_midnight_crossing :
    (∀ (w : TimeWindow) (d : DateTime),
      timeToMinutes w.endTime < timeToMinutes w.start →
      (isWithinTimeWindow w d = true ↔
        ((d.hours * 60 + d.minutes ≤ timeToMinutes w.endTime ∧
          (w.days.map jsToLower).contains (dayNames.getD ((d.weekday + 7 - 1) % 7) "") = true) ∨
         (timeToMinutes w.start ≤ d.hours * 60 + d.minutes ∧
          (w.days.map jsToLower).contains (dayNames.getD d.weekday "") = true)))) ∧
    isWithinTimeWindow nightWindow ⟨1, 23, 30⟩ = true ∧
    isWithinTimeWindow nightWindow ⟨2, 2, 0⟩ = true ∧
    isWithinTimeWindow nightWindow ⟨2, 10, 0⟩ = false ∧
    isWithinTimeWindow nightWindow ⟨0, 23, 30⟩ = false := by
  refine ⟨?_, by decide, by decide, by decide, by decide⟩
  intro w d hcross
  simp only [isWithinTimeWindow]
  rw [if_pos hcross]
  by_cases h1 : d.hours * 60 + d.minutes ≤ timeToMinutes w.endTime
  · rw [if_pos h1]
    have h2 : ¬ timeToMinutes w.start ≤ d.hours * 60 + d.minutes := by omega
    constructor
    · intro hc
      exact Or.inl ⟨h1, hc⟩
    · rintro (⟨_, hc⟩ | ⟨hs, _⟩)
      · exact hc
      · exact absurd hs h2
  · rw [if_neg h1]
    by_cases h2 : d.hours * 60 + d.minutes ≥ timeToMinutes w.start
    · rw [if_pos h2]
      constructor
      · intro hc
        exact Or.inr ⟨h2, hc⟩
      · rintro (⟨he, _⟩ | ⟨_, hc⟩)
        · exact absurd he h1
        · exact hc
    · rw [if_neg h2]
      constructor
      · intro hc
        exact absurd hc (by simp)
      · rintro (⟨he, _⟩ | ⟨hs, _⟩)
        · exact absurd he h1
        · exact absurd hs h2

/-- C4 witness: the characterization instantiated at Monday 23:30 for the
23:00-06:00 Monday window. -/
theorem isWithinTimeWindow_midnight_crossing_witness :
    timeToMinutes nightWindow.endTime < timeToMinutes nightWindow.start ∧
    (isWithinTimeWindow nightWindow ⟨1, 23, 30⟩ = true ↔
      ((23 * 60 + 30 ≤ timeToMinutes nightWindow.endTime ∧
        (nightWindow.days.map jsToLower).contains (dayNames.getD ((1 + 7 - 1) % 7) "") = true) ∨
       (timeToMinutes nightWindow.start ≤ 23 * 60 + 30 ∧
        (nightWindow.days.map jsToLower).contains (dayNames.getD 1 "") = true))) :=
  ⟨by decide, isWithinTimeWindow_midnight_crossing.1 nightWindow ⟨1, 23, 30⟩ (by decide)⟩

/-- C5: override-permission precedence of `isOverrideAllowed` — no matching
rule allows; a matching rule with blocking disabled allows; blocking enabled
with no windows blocks always; blocking enabled with windows blocks exactly
inside some window. -/
theorem isOverrideAllowed_rule_precedence (rules : List OverrideRule)
    (roomName : String) (d : DateTime) :
    (rules.find? (fun r => jsToLower r.roomName == jsToLower roomName) = none →
      isOverrideAllowed rules roomName d = true) ∧
    (∀ rule, rules.find? (fun r => jsToLower r.roomName == jsToLower roomName) = some rule →
      (rule.allowOverride = false → isOverrideAllowed rules roomName d = true) ∧
      (rule.allowOverride = true → rule.timeWindows = [] →
        isOverrideAllowed rules roomName d = false) ∧
      (rule.allowOverride = true → rule.timeWindows ≠ [] →
        (isOverrideAllowed rules roomName d = false ↔
          ∃ w ∈ rule.timeWindows, isWithinTimeWindow w d = true))) := by
  constructor
  · intro h
    simp only [isOverrideAllowed, h]
  · intro rule h
    refine ⟨?_, ?_, ?_⟩
    · intro hao
      simp only [isOverrideAllowed, h, hao, Bool.not_false, if_true]
    · intro hao hw
      simp [isOverrideAllowed, h, hao, hw]
    · intro hao hw
      have hlen : (rule.timeWindows.length == 0) = false := by
        simp [hw]
      simp [isOverrideAllowed, h, hao, hlen, List.any_eq_true]

/-- C5 witness: precedence applied to a concrete rule set in which the
kitchen rule has blocking enabled with the night window, evaluated on
Monday 23:30 (inside the window). -/
theorem isOverrideAllowed_rule_precedence_witness :
    ([⟨"Kitchen", true, [nightWindow]⟩] :
        List OverrideRule).find?
      (fun r => jsToLower r.roomName == jsToLower "kitchen") =
        some ⟨"Kitchen", true, [nightWindow]⟩ ∧
    (⟨"Kitchen", true, [nightWindow]⟩ : OverrideRule).allowOverride = true ∧
    [nightWindow] ≠ ([] : List TimeWindow) ∧
    (isOverrideAllowed [⟨"Kitchen", true, [nightWindow]⟩] "kitchen" ⟨1, 23, 30⟩ = false ↔
      ∃ w ∈ [nightWindow], isWithinTimeWindow w ⟨1, 23, 30⟩ = true) :=
  ⟨by decide, by decide, by decide,
    ((isOverrideAllowed_rule_precedence [⟨"Kitchen", true, [nightWindow]⟩] "kitchen"
        ⟨1, 23, 30⟩).2 ⟨"Kitchen", true, [nightWindow]⟩ (by decide)).2.2 (by decide) (by decide)⟩

/-- C2 counterexample: a DHW device's `changeableValues` mode/status stamped
by `updateDHWState` 1000 ms earlier (well inside the 5-second window) is
overwritten by `setDevices`: the merge keeps only the zone `heatSetpoint`
field, so the incoming snapshot's differing mode wins. -/
theorem setDevices_dhw_marker_not_preserved :
    updateDHWState (some [dhwBase]) 1000 100 "DHWOn" "Temporary" = some [dhwStamped] ∧
    dhwStamped.thermostat.changeableValues.optimisticUpdateTime = some 1000 ∧
    (2000 - 1000 : Nat) < 5000 ∧
    dhwStamped.thermostat.changeableValues.mode = some "DHWOn" ∧
    dhwIncoming.thermostat.changeableValues.mode = some "DHWOff" ∧
    dhwStamped.thermostat.changeableValues.mode ≠
      dhwIncoming.thermostat.changeableValues.mode ∧
    setDevices (some [dhwStamped]) 2000 [dhwIncoming] = some [dhwIncoming] := by
  decide

/-- C2 (amended): `setDevices` merges each incoming device with
`mergeDevice`, and the zone `heatSetpoint` — the one field the merge
inspects — is preserved from the cache exactly when the cached value differs
from the incoming one and its optimistic marker is (truthy and) less than 5
seconds old, while a marker 5 or more seconds old lets the incoming value
win; the merge never touches the DHW `mode`/`status` fields. -/
theorem setDevices_preserves_recent_zone_setpoint
    (existingCache : List Device) (now : Nat) (newDevice existingDevice : Device)
    (esp nsp : HeatSetpoint) (t : Nat)
    (hfind : existingCache.find? (fun d => d.deviceID == newDevice.deviceID) =
      some existingDevice)
    (hesp : existingDevice.thermostat.changeableValues.heatSetpoint = some esp)
    (hnsp : newDevice.thermostat.changeableValues.heatSetpoint = some nsp)
    (hdiff : esp.value ≠ nsp.value)
    (ht : esp.optimisticUpdateTime = some t) (ht0 : t ≠ 0) :
    (∀ devices : List Device,
      setDevices (some existingCache) now devices =
        some (devices.map (mergeDevice existingCache now))) ∧
    (now - t < 5000 →
      mergeDevice existingCache now newDevice =
        { newDevice with thermostat.changeableValues.heatSetpoint := some esp }) ∧
    (5000 ≤ now - t → mergeDevice existingCache now newDevice = newDevice) ∧
    (mergeDevice existingCache now newDevice).thermostat.changeableValues.mode =
      newDevice.thermostat.changeableValues.mode ∧
    (mergeDevice existingCache now newDevice).thermostat.changeableValues.status =
      newDevice.thermostat.changeableValues.status := by
  have htruthy : (t != 0) = true := by simpa using ht0
  have hmerge : mergeDevice existingCache now newDevice =
      if now - t < 5000 then
        { newDevice with thermostat.changeableValues.heatSetpoint := some esp }
      else newDevice := by
    simp only [mergeDevice, hfind, hesp, hnsp, ht]
    rw [if_pos ⟨hdiff, htruthy⟩]
    simp [Option.getD]
  refine ⟨fun _ => rfl, ?_, ?_, ?_, ?_⟩
  · intro hlt
    rw [hmerge, if_pos hlt]
  · intro hge
    rw [hmerge, if_neg (by omega)]
  · rw [hmerge]
    split <;> rfl
  · rw [hmerge]
    split <;> rfl

/-- C2 witness: the amended preservation applied to a concrete zone device
whose cached setpoint (22°, stamped at t=1000ms) differs from the incoming
20°, merged at t=2000ms. -/
theorem setDevices_preserves_recent_zone_setpoint_witness :
    ([zoneCached].find? (fun d => d.deviceID == zoneIncoming.deviceID) = some zoneCached) ∧
    (zoneCached.thermostat.changeableValues.heatSetpoint =
      some ⟨22, "Temporary", some 1000⟩) ∧
    ((2000 - 1000 : Nat) < 5000 ∧
      mergeDevice [zoneCached] 2000 zoneIncoming =
        { zoneIncoming with
          thermostat.changeableValues.heatSetpoint := some ⟨22, "Temporary", some 1000⟩ }) :=
  ⟨by decide, by decide, by decide,
    (setDevices_preserves_recent_zone_setpoint [zoneCached] 2000 zoneIncoming zoneCached
      ⟨22, "Temporary", some 1000⟩ ⟨20, "Scheduled", none⟩ 1000
      (by decide) (by decide) (by decide) (by decide) (by decide) (by decide)).2.1
      (by decide)⟩

/-- C3 counterexample: after three consecutive authentication failures, the
last 10 seconds ago, the pending backoff is 110000 ms — yet the V1 token
path with no usable cached token proceeds straight to the remote
authenticate call with zero wait, and `getV1Token` performs the remote call
(auth-call count 1) immediately. -/
theorem getV1Token_ignores_backoff :
    backoffState.authFailureCount = 3 ∧
    backoffState.lastAuthFailure = some 1000000 ∧
    getAuthRetryDelay backoffState 1010000 = 110000 ∧
    (0 : Int) < 110000 ∧
    getV1TokenStep backoffState 1010000 = .authenticate 0 ∧
    (getV1Token backoffState 1010000 (.ok "tok" 3600)).2.2 = 1 := by
  decide

/-- C3 (amended): the exponential backoff guards only the V2 session path.
Whenever the last failure is less than `30s * 2^min(count-1, 3)` old,
`getAuthRetryDelay` returns exactly the remaining time, so a V2
authentication (no cached session) is delayed until the full backoff has
elapsed since the failure — with three prior failures the fourth V2 attempt
comes no earlier than 120 s after the last failure.  The V1 token path never
waits: with no usable cached token it authenticates with zero delay. -/
theorem authBackoff_guards_v2_only (st : AuthManagerState) (now lastFailure : Int)
    (hlf : st.lastAuthFailure = some lastFailure)
    (hcount : 1 ≤ st.authFailureCount)
    (hwait : now - lastFailure <
      MIN_AUTH_RETRY_DELAY * 2 ^ (min (st.authFailureCount - 1) 3)) :
    getAuthRetryDelay st now =
      MIN_AUTH_RETRY_DELAY * 2 ^ (min (st.authFailureCount - 1) 3) - (now - lastFailure) ∧
    now + getAuthRetryDelay st now =
      lastFailure + MIN_AUTH_RETRY_DELAY * 2 ^ (min (st.authFailureCount - 1) 3) ∧
    (st.cachedV2Session = none →
      getV2SessionStep st now false = .authenticate (getAuthRetryDelay st now)) ∧
    (st.authFailureCount = 3 →
      lastFailure + 120000 ≤ now + getAuthRetryDelay st now) ∧
    (st.cachedV1Token = none → getV1TokenStep st now = .authenticate 0) := by
  have hdelay : getAuthRetryDelay st now =
      MIN_AUTH_RETRY_DELAY * 2 ^ (min (st.authFailureCount - 1) 3) - (now - lastFailure) := by
    simp only [getAuthRetryDelay, hlf]
    rw [if_pos hwait]
  refine ⟨hdelay, by rw [hdelay]; ring, ?_, ?_, ?_⟩
  · intro hv2
    simp only [getV2SessionStep, hv2]
  · intro h3
    rw [hdelay, h3]
    simp only [MIN_AUTH_RETRY_DELAY]
    norm_num
    omega
  · intro hv1
    simp only [getV1TokenStep, hv1]

/-- C3 witness: the amended backoff statement at the concrete
three-failure state, 10 seconds after the last failure. -/
theorem authBackoff_guards_v2_only_witness :
    backoffState.lastAuthFailure = some 1000000 ∧
    1 ≤ backoffState.authFailureCount ∧
    ((1010000 : Int) - 1000000 <
      MIN_AUTH_RETRY_DELAY * 2 ^ (min (backoffState.authFailureCount - 1) 3)) ∧
    getAuthRetryDelay backoffState 1010000 =
      MIN_AUTH_RETRY_DELAY * 2 ^ (min (backoffState.authFailureCount - 1) 3) -
        ((1010000 : Int) - 1000000) :=
  ⟨by decide, by decide, by decide,
    (authBackoff_guards_v2_only backoffState 1010000 1000000
      (by decide) (by decide) (by decide)).1⟩

/-- C6: `getV1Token` returns the cached bearer token iff the present instant
is strictly before the cached `expiresAt` (performing no remote call); once
that instant has been reached or passed, or with nothing cached, it performs
exactly one remote authentication call and caches the fresh token with
`expiresAt = now + (lifetime - 300 s)`, expressed in milliseconds. -/
theorem getV1Token_cache_spec (st : AuthManagerState) (now : Int)
    (outcome : V1AuthOutcome) :
    (∀ cached, st.cachedV1Token = some cached → now < cached.expiresAt →
      getV1Token st now outcome = (.ok cached.token, st, 0)) ∧
    (∀ cached tok lifetime, st.cachedV1Token = some cached → cached.expiresAt ≤ now →
      outcome = .ok tok lifetime →
      getV1Token st now outcome =
        (.ok tok, { st with cachedV1Token := some ⟨tok, now + (lifetime - 300) * 1000⟩ }, 1)) ∧
    (∀ tok lifetime, st.cachedV1Token = none → outcome = .ok tok lifetime →
      getV1Token st now outcome =
        (.ok tok, { st with cachedV1Token := some ⟨tok, now + (lifetime - 300) * 1000⟩ }, 1)) := by
  refine ⟨?_, ?_, ?_⟩
  · intro cached hc hlt
    simp only [getV1Token, hc]
    rw [if_pos hlt]
  · intro cached tok lifetime hc hge ho
    simp only [getV1Token, hc, ho]
    rw [if_neg (by omega)]
    rfl
  · intro tok lifetime hc ho
    simp only [getV1Token, hc, ho]
    rfl

/-- C6 witness: a token cached with `expiresAt` = 5000 ms is returned at
now = 4999 ms with no remote call, and at now = 5000 ms (the instant has
passed) one remote call re-authenticates and stores
`expiresAt = 5000 + (3600 - 300) * 1000`. -/
theorem getV1Token_cache_spec_witness :
    (AuthManagerState.mk none (some ⟨"tok", 5000⟩) none 0).cachedV1Token =
      some ⟨"tok", 5000⟩ ∧
    ((4999 : Int) < 5000 ∧
      getV1Token ⟨none, some ⟨"tok", 5000⟩, none, 0⟩ 4999 (.ok "fresh" 3600) =
        (.ok "tok", ⟨none, some ⟨"tok", 5000⟩, none, 0⟩, 0)) ∧
    ((5000 : Int) ≤ 5000 ∧
      getV1Token ⟨none, some ⟨"tok", 5000⟩, none, 0⟩ 5000 (.ok "fresh" 3600) =
        (.ok "fresh", ⟨none, some ⟨"fresh", 5000 + (3600 - 300) * 1000⟩, none, 0⟩, 1)) :=
  ⟨rfl,
   ⟨by decide,
    (getV1Token_cache_spec ⟨none, some ⟨"tok", 5000⟩, none, 0⟩ 4999 (.ok "fresh" 3600)).1
      ⟨"tok", 5000⟩ rfl (by decide)⟩,
   ⟨by decide,
    (getV1Token_cache_spec ⟨none, some ⟨"tok", 5000⟩, none, 0⟩ 5000 (.ok "fresh" 3600)).2.1
      ⟨"tok", 5000⟩ "fresh" 3600 rfl (by decide) rfl⟩⟩

/-- C7: if an attempt of `retryWithBackoff` fails with a non-rate-limit
error, or the failing attempt is the last of the `maxRetries + 1` budget,
the error propagates at once with no further attempt and no delay — in
particular a non-rate-limit error on the very first attempt propagates with
an empty delay list — while a rate-limit failure with budget remaining
awaits exactly `baseDelay * 2 ^ attempt` ms before the next attempt. -/
theorem retryWithBackoff_propagation {α : Type}
    (outcomes : AttemptOutcomes α) (maxRetries baseDelay : Nat) :
    (∀ e, outcomes 0 = .error e → isRateLimitError e = false →
      retryWithBackoff outcomes maxRetries baseDelay = (.error e, [])) ∧
    (∀ fuel attempt lastError e, outcomes attempt = .error e →
      isRateLimitError e = false →
      retryLoop outcomes maxRetries baseDelay (fuel + 1) attempt lastError =
        (.error e, [])) ∧
    (∀ fuel lastError e, outcomes maxRetries = .error e →
      retryLoop outcomes maxRetries baseDelay (fuel + 1) maxRetries lastError =
        (.error e, [])) ∧
    (∀ fuel attempt lastError e, outcomes attempt = .error e →
      isRateLimitError e = true → attempt ≠ maxRetries →
      retryLoop outcomes maxRetries baseDelay (fuel + 1) attempt lastError =
        ((retryLoop outcomes maxRetries baseDelay fuel (attempt + 1) (some e)).1,
          baseDelay * 2 ^ attempt ::
            (retryLoop outcomes maxRetries baseDelay fuel (attempt + 1) (some e)).2)) := by
  have step :
      ∀ fuel attempt lastError e, outcomes attempt = .error e →
        isRateLimitError e = false →
        retryLoop outcomes maxRetries baseDelay (fuel + 1) attempt lastError =
          (.error e, []) := by
    intro fuel attempt lastError e he hr
    simp only [retryLoop, he, hr]
    simp
  refine ⟨?_, step, ?_, ?_⟩
  · intro e he hr
    have := step maxRetries 0 none e he hr
    simpa [retryWithBackoff] using this
  · intro fuel lastError e he
    simp only [retryLoop, he]
    simp
  · intro fuel attempt lastError e he hr hne
    have hbeq : (attempt == maxRetries) = false := by
      simp [hne]
    simp only [retryLoop, he, hr, hbeq]
    simp

/-- C7 witness: a concrete operation whose first attempt throws a plain
(non-rate-limit) error propagates at once with an empty delay list. -/
theorem retryWithBackoff_propagation_witness :
    ((fun _ => Except.error ⟨"boom"⟩ : AttemptOutcomes Nat) 0 = .error ⟨"boom"⟩) ∧
    isRateLimitError ⟨"boom"⟩ = false ∧
    retryWithBackoff (fun _ => Except.error ⟨"boom"⟩ : AttemptOutcomes Nat) 3 1000 =
      (.error ⟨"boom"⟩, []) :=
  ⟨rfl, by decide,
    (retryWithBackoff_propagation (fun _ => Except.error ⟨"boom"⟩) 3 1000).1
      ⟨"boom"⟩ rfl (by decide)⟩

/-- Looking up the key just written by `mapSet` yields the new value. -/
theorem mapGet_mapSet_self (k : String) (v : β) (m : List (String × β)) :
    mapGet (mapSet k v m) k = some v := by
  induction m with
  | nil => simp [mapGet, mapSet]
  | cons p rest ih =>
    obtain ⟨k', v'⟩ := p
    by_cases h : k' = k
    · simp [mapSet, mapGet, h]
    · have hb : (k' == k) = false := by simp [h]
      simp only [mapSet, hb, Bool.false_eq_true, if_false]
      simpa [mapGet, List.find?, hb] using ih

/-- C8: `executeTask` on a registered task absorbs the handler's outcome —
success ends in OK with cleared detail, an exception ends in Failed with the
error's message as detail — and in both cases records `lastRun`, bumps the
run counter, computes the next aligned delay and arms the task's timer, so
the recurrence continues after a failure. -/
theorem executeTask_records_outcome_and_reschedules
    (st : SchedulerState) (taskId : String) (config : TaskConfig)
    (status : TaskStatus) (handlerResult : Except ApiError Unit)
    (now : WallClock) (nowMs : Nat)
    (hc : mapGet st.taskConfigs taskId = some config)
    (hs : mapGet st.taskStatuses taskId = some status) :
    mapGet (executeTask st taskId handlerResult now nowMs).taskStatuses taskId =
      some { taskId := status.taskId
             lastRun := some nowMs
             nextRun := some (nowMs + scheduleNextRunDelay status.intervalMinutes now)
             status := match handlerResult with
               | .ok _ => TaskState.ok
               | .error _ => TaskState.failed
             statusDetail := match handlerResult with
               | .ok _ => ""
               | .error e => e.message
             intervalMinutes := status.intervalMinutes
             totalRuns := status.totalRuns + 1 } ∧
    mapGet (executeTask st taskId handlerResult now nowMs).timers taskId =
      some (scheduleNextRunDelay status.intervalMinutes now) := by
  obtain ⟨tid, lastRun, nextRun, stt, detail, im, tr⟩ := status
  cases handlerResult with
  | ok v =>
    simp [executeTask, hc, hs, scheduleNextRun, mapGet_mapSet_self]
  | error e =>
    simp [executeTask, hc, hs, scheduleNextRun, mapGet_mapSet_self]

/-- C8 witness: a failing handler on the sample one-task scheduler records
Failed with the error message and arms the next aligned run. -/
theorem executeTask_records_outcome_and_reschedules_witness :
    mapGet sampleScheduler.taskConfigs "evohome:zoneStatus" = some sampleConfig ∧
    mapGet sampleScheduler.taskStatuses "evohome:zoneStatus" = some sampleStatus ∧
    mapGet (executeTask sampleScheduler "evohome:zoneStatus"
        (.error ⟨"HTTP error! status: 500"⟩) ⟨3, 10, 0⟩ 1700000000000).taskStatuses
        "evohome:zoneStatus" =
      some { taskId := "evohome:zoneStatus"
             lastRun := some 1700000000000
             nextRun := some (1700000000000 + scheduleNextRunDelay 5 ⟨3, 10, 0⟩)
             status := TaskState.failed
             statusDetail := "HTTP error! status: 500"
             intervalMinutes := 5
             totalRuns := 1 } :=
  ⟨by decide, by decide,
    (executeTask_records_outcome_and_reschedules sampleScheduler "evohome:zoneStatus"
      sampleConfig sampleStatus (.error ⟨"HTTP error! status: 500"⟩) ⟨3, 10, 0⟩
      1700000000000 (by decide) (by decide)).1⟩

/-- C9: `updateTaskInterval` on a task id that was never registered returns
with the whole scheduler state — configs, statuses, timers and operation
queue — unchanged (the source only logs a warning). -/
theorem updateTaskInterval_unknown_task_noop
    (st : SchedulerState) (taskId : String) (newIntervalMinutes : Nat)
    (now : WallClock) (nowMs : Nat)
    (hc : mapGet st.taskConfigs taskId = none) :
    updateTaskInterval st taskId newIntervalMinutes now nowMs = st := by
  simp [updateTaskInterval, hc]

/-- C9 witness: updating the interval of an unregistered id on the sample
scheduler changes nothing. -/
theorem updateTaskInterval_unknown_task_noop_witness :
    mapGet sampleScheduler.taskConfigs "evohome:unknownTask" = none ∧
    updateTaskInterval sampleScheduler "evohome:unknownTask" 30 ⟨3, 10, 0⟩ 1700000000000 =
      sampleScheduler :=
  ⟨by decide,
    updateTaskInterval_unknown_task_noop sampleScheduler "evohome:unknownTask" 30
      ⟨3, 10, 0⟩ 1700000000000 (by decide)⟩

/-- Rewriting `updateFirst` at the element `find?` locates: only the image of
that first match matters. -/
theorem updateFirst_eq_of_find? (p : α → Bool) (f g : α → α) (l : List α) (a : α)
    (hfind : l.find? p = some a) (hfg : f a = g a) :
    updateFirst p f l = updateFirst p g l := by
  induction l with
  | nil => simp at hfind
  | cons x xs ih =>
    by_cases hx : p x
    · rw [List.find?_cons_of_pos _ hx] at hfind
      obtain rfl : a = x := by injection hfind with h; exact h.symm
      simp [updateFirst, hx, hfg]
    · rw [List.find?_cons_of_neg _ hx] at hfind
      simp [updateFirst, hx, ih hfind]

/-- C10: cancelling an override (`updateDeviceState` with temperature 0.0
and status `Scheduled`) on a cached device that already has a heat setpoint,
when no schedule is cached for the zone, rewrites only the setpoint's status
and optimistic marker: the written setpoint keeps the cached value
unchanged, and every other part of the device and of the cache list is
untouched. -/
theorem updateDeviceState_no_schedule_keeps_value
    (devices : List Device) (zoneSchedules : List ZoneSchedule) (date : DateTime)
    (now : Nat) (deviceId : Nat) (device : Device) (hs : HeatSetpoint)
    (hfind : devices.find? (fun d => d.deviceID == deviceId) = some device)
    (hhs : device.thermostat.changeableValues.heatSetpoint = some hs)
    (hsched : getScheduledTemperature zoneSchedules (toString deviceId) date = none) :
    updateDeviceState (some devices) zoneSchedules date now deviceId 0 "Scheduled" =
      some (updateFirst (fun d => d.deviceID == deviceId)
        (fun _ =>
          { device with
            thermostat.changeableValues.heatSetpoint :=
              some ⟨hs.value, "Scheduled", some now⟩ })
        devices) := by
  simp only [updateDeviceState, hfind, hsched]
  congr 1
  apply updateFirst_eq_of_find? _ _ _ _ _ hfind
  obtain ⟨v, s, m⟩ := hs
  simp [hhs]

/-- C10 witness: cancelling on the sample zone device with no cached
schedules stamps status `Scheduled` and the marker while keeping 21°. -/
theorem updateDeviceState_no_schedule_keeps_value_witness :
    ([sampleZoneDevice].find? (fun d => d.deviceID == 7) = some sampleZoneDevice) ∧
    (sampleZoneDevice.thermostat.changeableValues.heatSetpoint =
      some ⟨21, "Hold", none⟩) ∧
    getScheduledTemperature [] (toString 7) ⟨1, 12, 0⟩ = none ∧
    updateDeviceState (some [sampleZoneDevice]) [] ⟨1, 12, 0⟩ 5000 7 0 "Scheduled" =
      some (updateFirst (fun d => d.deviceID == 7)
        (fun _ =>
          { sampleZoneDevice with
            thermostat.changeableValues.heatSetpoint :=
              some ⟨(21 : Rat), "Scheduled", some 5000⟩ })
        [sampleZoneDevice]) :=
  ⟨by decide, by decide, by decide,
    updateDeviceState_no_schedule_keeps_value [sampleZoneDevice] [] ⟨1, 12, 0⟩ 5000 7
      sampleZoneDevice ⟨21, "Hold", none⟩ (by decide) (by decide) (by decide)⟩

end HomeMonitor
